/-
Verification of the Singsationsadec client data layer and recording session.

This file gives a shallow embedding, in Lean 4, of the two subsystems of the
karaoke-competition web application that the specification documents:

* the persistence/fallback client (`lib/api.ts`, class `ApiClient`): the
  localStorage-backed fallback store and the operations `fallbackSignup`,
  `fallbackSignin`, `logActivity`, `signup`, `signin`, `savePurchase`,
  `getCurrentUser`, `getUserById`, `getUserReport`, `getAllUserReports`,
  `getTopUsers`, `exportUserData`;
* the recording session state machine of the `KaraokeRecording` component
  (`startRecording`, `stopRecording`, `restartRecording`, the 1-second timer
  tick and the `ondataavailable` chunk handler).

Modelling conventions:

* The browser `localStorage` is modelled as a record `Store` holding the five
  keys the code uses (`fallback_users`, `auth_token`, `user_data`,
  `user_activities`, `user_purchases`), deserialized.
* Timestamps (`Date.now()`, `new Date().toISOString()`,
  `new Date(s).getTime()`) are modelled as epoch-millisecond naturals; the
  code only ever compares them through `getTime`, which is monotone in the
  instant, so a `Nat` is a faithful abstraction.  Call sites that read the
  clock take the current instant as an explicit `now : Nat` argument, and the
  random id suffix of `logActivity` is an explicit `rand : String` argument.
* `Date.prototype.toLocaleString` is a host-locale function; operations that
  call it (`exportUserData`) take it as an explicit parameter
  `fmt : Nat → String`.
* JavaScript `Array.prototype.sort` is stable (ECMAScript 2019 and later) and
  the code sorts by numeric comparators `(a, b) => key b - key a`; this is
  modelled by the stable descending-by-key insertion sort `sortByKeyDesc`
  below, which produces exactly the sorted order such a comparator defines.
* Network calls are modelled by their observable outcome: `savePurchase`
  takes the remote outcome as a `RemoteOutcome` parameter.  The module flag
  `USE_FALLBACK` is `true` in the source, so `signup`/`signin` are embedded
  as the fallback path plus the activity logging the wrapper performs.
-/
import Mathlib

namespace Singsation

/-! ## Stable descending sort by a natural-number key

JavaScript `array.sort((a, b) => key(b) - key(a))` is a stable sort that
orders elements by descending key, keeping the original relative order of
elements with equal keys.  `sortByKeyDesc` is the insertion-sort realisation
of that specification: `insertByKey` walks past the elements of strictly
greater key and inserts in front of the first element whose key is less than
or equal, so an element inserted earlier (further left in the original list)
stays in front of later elements with the same key. -/

/-- Insert `a` into `l`, skipping elements of strictly greater key. -/
def insertByKey (key : α → Nat) (a : α) : List α → List α
  | [] => [a]
  | b :: l => if key a < key b then b :: insertByKey key a l else a :: b :: l

/-- Stable descending-by-key sort, as performed by the JavaScript comparator
`(a, b) => key(b) - key(a)` under a stable `Array.prototype.sort`. -/
def sortByKeyDesc (key : α → Nat) : List α → List α
  | [] => []
  | a :: l => insertByKey key a (sortByKeyDesc key l)

theorem perm_insertByKey (key : α → Nat) (a : α) (l : List α) :
    List.Perm (insertByKey key a l) (a :: l) := by
  induction l with
  | nil => simp [insertByKey]
  | cons b t ih =>
    simp only [insertByKey]
    split
    · exact (ih.cons b).trans (List.Perm.swap a b t)
    · exact List.Perm.refl _

theorem perm_sortByKeyDesc (key : α → Nat) (l : List α) :
    List.Perm (sortByKeyDesc key l) l := by
  induction l with
  | nil => simp [sortByKeyDesc]
  | cons a t ih =>
    simp only [sortByKeyDesc]
    exact (perm_insertByKey key a (sortByKeyDesc key t)).trans (ih.cons a)

theorem sorted_insertByKey (key : α → Nat) (a : α) (l : List α)
    (h : l.Pairwise (fun x y => key y ≤ key x)) :
    (insertByKey key a l).Pairwise (fun x y => key y ≤ key x) := by
  induction l with
  | nil => simp [insertByKey]
  | cons b t ih =>
    rw [List.pairwise_cons] at h
    simp only [insertByKey]
    split
    · rename_i hab
      rw [List.pairwise_cons]
      refine ⟨fun y hy => ?_, ih h.2⟩
      have hy' : y ∈ a :: t := (perm_insertByKey key a t).mem_iff.mp hy
      rcases List.mem_cons.mp hy' with rfl | hy'
      · exact Nat.le_of_lt hab
      · exact h.1 y hy'
    · rename_i hab
      rw [List.pairwise_cons]
      refine ⟨fun y hy => ?_, List.pairwise_cons.mpr h⟩
      rcases List.mem_cons.mp hy with hy | hy
      · subst hy; exact Nat.le_of_not_lt hab
      · exact Nat.le_trans (h.1 y hy) (Nat.le_of_not_lt hab)

theorem sorted_sortByKeyDesc (key : α → Nat) (l : List α) :
    (sortByKeyDesc key l).Pairwise (fun x y => key y ≤ key x) := by
  induction l with
  | nil => simp [sortByKeyDesc]
  | cons a t ih => exact sorted_insertByKey key a _ ih

theorem filter_insertByKey (key : α → Nat) (v : Nat) (a : α) (l : List α) :
    (insertByKey key a l).filter (fun x => key x == v)
      = if key a == v then a :: l.filter (fun x => key x == v)
        else l.filter (fun x => key x == v) := by
  induction l with
  | nil => by_cases h : key a = v <;> simp [insertByKey, h]
  | cons b t ih =>
    simp only [insertByKey]
    by_cases hab : key a < key b
    · rw [if_pos hab]
      by_cases hb : key b = v
      · have hav : ¬ key a = v := by omega
        simp only [List.filter_cons, hb, hav, ih]
        simp [hav]
      · by_cases ha : key a = v <;>
          simp [List.filter_cons, hb, ha, ih]
    · rw [if_neg hab]
      by_cases ha : key a = v <;> simp [List.filter_cons, ha]

theorem filter_sortByKeyDesc (key : α → Nat) (v : Nat) (l : List α) :
    (sortByKeyDesc key l).filter (fun x => key x == v)
      = l.filter (fun x => key x == v) := by
  induction l with
  | nil => simp [sortByKeyDesc]
  | cons a t ih =>
    simp only [sortByKeyDesc]
    rw [filter_insertByKey, ih]
    by_cases ha : key a = v <;> simp [List.filter_cons, ha]

theorem strict_sorted_sortByKeyDesc (key : α → Nat) (l : List α)
    (hd : l.Pairwise (fun x y => key x ≠ key y)) :
    (sortByKeyDesc key l).Pairwise (fun x y => key y < key x) := by
  have hs := sorted_sortByKeyDesc key l
  have hsym : ∀ {x y : α}, key x ≠ key y → key y ≠ key x := fun h => h.symm
  have hd' : (sortByKeyDesc key l).Pairwise (fun x y => key x ≠ key y) :=
    ((perm_sortByKeyDesc key l).pairwise_iff @hsym).mpr hd
  exact (hs.and hd').imp fun h => Nat.lt_of_le_of_ne h.1 h.2.symm

/-! ## Data model (`lib/api.ts` interfaces) -/

/-- The public `User` interface: `id`, `email`, optional `phone` and `name`,
and the creation timestamp (an ISO string in the source, modelled as the
epoch-millisecond instant it denotes).  Note there is no password field. -/
structure User where
  id : Nat
  email : String
  phone : Option String
  name : Option String
  created_at : Nat
deriving DecidableEq

/-- The record actually persisted in the `fallback_users` key: in
`fallbackSignup` the code stores `{ ...newUser, password }`, i.e. the public
fields plus the plaintext password. -/
structure StoredUser where
  id : Nat
  email : String
  phone : Option String
  name : Option String
  created_at : Nat
  password : String
deriving DecidableEq

/-- The `AuthResponse` interface. -/
structure AuthResponse where
  success : Bool
  message : String
  user : Option User
  token : Option String
deriving DecidableEq

/-- The closed set of activity tags of the `ActivityLog` interface. -/
inductive EventType where
  | signup
  | signin
  | song_selection
  | recording_complete
  | payment
deriving DecidableEq

/-- The free-form `details` map of an `ActivityLog`; the fields are the keys
the code ever writes (`logActivity` call sites). -/
structure Details where
  songTitle : Option String := none
  category : Option String := none
  paymentAmount : Option Int := none
  email : Option String := none
  phone : Option String := none
  name : Option String := none
deriving DecidableEq

/-- The `ActivityLog` interface.  `id` is the `Date.now()_random` string,
`timestamp` the ISO timestamp (modelled as its epoch-millisecond instant). -/
structure ActivityLog where
  id : String
  userId : Nat
  eventType : EventType
  timestamp : Nat
  details : Option Details
deriving DecidableEq

/-- The `PurchaseData` interface. -/
structure PurchaseData where
  user_id : Nat
  song_title : String
  artist_name : String
  category : String
  video_url : String
  amount : Int
deriving DecidableEq

/-- A purchase as persisted by `savePurchase`: the `PurchaseData` fields plus
the generated `id` (`Date.now()`) and `purchased_at` timestamp. -/
structure StoredPurchase where
  user_id : Nat
  song_title : String
  artist_name : String
  category : String
  video_url : String
  amount : Int
  id : Nat
  purchased_at : Nat
deriving DecidableEq

/-- The `UserReport` interface. -/
structure UserReport where
  userId : Nat
  email : String
  artistName : Option String
  totalSignIns : Nat
  songsSelected : Nat
  recordingsCompleted : Nat
  paymentsCompleted : Nat
  lastActivity : Nat
  activities : List ActivityLog
deriving DecidableEq

/-- The record `getTopUsers` maps each report to: `{ ...report,
totalActivity }`. -/
structure RankedReport extends UserReport where
  totalActivity : Nat
deriving DecidableEq

/-- The durable local store: the five `localStorage` keys used by
`ApiClient`, deserialized.  `none` models an absent key. -/
structure Store where
  fallback_users : List StoredUser := []
  auth_token : Option String := none
  user_data : Option User := none
  user_activities : List ActivityLog := []
  user_purchases : List StoredPurchase := []
deriving DecidableEq

/-- The module flag: `const USE_FALLBACK = true` in the source. -/
def USE_FALLBACK : Bool := true

/-! ## Persistence/fallback client (`class ApiClient`) -/

namespace ApiClient

/-- `getCurrentUser()`: reads the cached user from the `user_data` key. -/
def getCurrentUser (σ : Store) : Option User :=
  σ.user_data

/-- `isAuthenticated()`: true iff an `auth_token` is present. -/
def isAuthenticated (σ : Store) : Bool :=
  σ.auth_token.isSome

/-- The destructuring `const { password, ...userWithoutPassword } = userData`
used by `fallbackSignin` and `getUserById`: all stored fields except the
password. -/
def userWithoutPassword (su : StoredUser) : User :=
  { id := su.id, email := su.email, phone := su.phone, name := su.name,
    created_at := su.created_at }

/-- `fallbackSignup(email, password, phone?, name?)`.  `now` is the value of
`Date.now()` (also the instant `new Date().toISOString()` renders).  Returns
the `AuthResponse` and the updated store. -/
def fallbackSignup (σ : Store) (email password : String)
    (phone name : Option String) (now : Nat) : AuthResponse × Store :=
  if (σ.fallback_users.find? (fun u => u.email == email)).isSome then
    ({ success := false, message := "User already exists with this email.",
       user := none, token := none }, σ)
  else
    let newUser : User :=
      { id := now, email := email, phone := phone, name := name,
        created_at := now }
    let userData : StoredUser :=
      { id := now, email := email, phone := phone, name := name,
        created_at := now, password := password }
    let token := "fallback_token_" ++ Nat.repr now
    ({ success := true, message := "Account created successfully!",
       user := some newUser, token := some token },
     { σ with fallback_users := σ.fallback_users ++ [userData],
              auth_token := some token,
              user_data := some newUser })

/-- `fallbackSignin(email, password)`: exact email+password match against the
`fallback_users` list. -/
def fallbackSignin (σ : Store) (email password : String) :
    AuthResponse × Store :=
  match σ.fallback_users.find?
      (fun u => u.email == email && u.password == password) with
  | none =>
    ({ success := false, message := "Invalid email or password.",
       user := none, token := none }, σ)
  | some u =>
    let uw := userWithoutPassword u
    let token := "fallback_token_" ++ Nat.repr u.id
    ({ success := true, message := "Signed in successfully!",
       user := some uw, token := some token },
     { σ with auth_token := some token, user_data := some uw })

/-- `logActivity(eventType, details?)`: no-op without a current user,
otherwise appends one event to the `user_activities` list.  `now` is
`Date.now()` and `rand` the random id suffix.  (`USE_FALLBACK` is true, so
no network send is attempted.) -/
def logActivity (σ : Store) (eventType : EventType)
    (details : Option Details) (now : Nat) (rand : String) : Store :=
  match getCurrentUser σ with
  | none => σ
  | some user =>
    let activity : ActivityLog :=
      { id := Nat.repr now ++ "_" ++ rand, userId := user.id,
        eventType := eventType, timestamp := now, details := details }
    { σ with user_activities := σ.user_activities ++ [activity] }

/-- `signup(email, password, phone?, name?)` with `USE_FALLBACK = true`:
the fallback signup, then a `signup` activity log on success (the wrapper
logs `{ email, phone, name }` as details).  `now` is the clock at the signup,
`now2` at the activity log. -/
def signup (σ : Store) (email password : String) (phone name : Option String)
    (now now2 : Nat) (rand : String) : AuthResponse × Store :=
  let r := fallbackSignup σ email password phone name now
  if r.1.success then
    (r.1, logActivity r.2 EventType.signup
      (some { email := some email, phone := phone, name := name }) now2 rand)
  else r

/-- `signin(email, password)` with `USE_FALLBACK = true`: the fallback
signin, then a `signin` activity log on success. -/
def signin (σ : Store) (email password : String) (now : Nat)
    (rand : String) : AuthResponse × Store :=
  let r := fallbackSignin σ email password
  if r.1.success then
    (r.1, logActivity r.2 EventType.signin
      (some { email := some email }) now rand)
  else r

/-- The `{ success, message }` result of `savePurchase`, also the shape of a
remote `response.json()` body. -/
structure SaveResult where
  success : Bool
  message : String
deriving DecidableEq

/-- Observable outcome of the remote `POST /api/purchases` call: `ok resp`
is a 2xx response with body `resp`; `fail` is any transport error, timeout
or non-ok HTTP status (everything the `catch` block handles). -/
inductive RemoteOutcome where
  | ok (resp : SaveResult)
  | fail
deriving DecidableEq

/-- `savePurchase(purchaseData)`: unconditionally appends the record (with
generated `id` and `purchased_at`) to the local `user_purchases` list, then
either returns immediately (fallback mode) or attempts the remote mirror,
degrading any remote failure to a local-success result. -/
def savePurchase (σ : Store) (p : PurchaseData) (useFallback : Bool)
    (remote : RemoteOutcome) (now : Nat) : SaveResult × Store :=
  let purchaseWithId : StoredPurchase :=
    { user_id := p.user_id, song_title := p.song_title,
      artist_name := p.artist_name, category := p.category,
      video_url := p.video_url, amount := p.amount,
      id := now, purchased_at := now }
  let σ2 := { σ with user_purchases := σ.user_purchases ++ [purchaseWithId] }
  if useFallback then
    ({ success := true, message := "Purchase saved successfully!" }, σ2)
  else
    match remote with
    | RemoteOutcome.ok resp => (resp, σ2)
    | RemoteOutcome.fail =>
      ({ success := true,
         message := "Purchase saved locally (API unavailable)." }, σ2)

/-- `getUserById(userId)` (private): first stored user with that id, with
the password stripped. -/
def getUserById (σ : Store) (userId : Nat) : Option User :=
  (σ.fallback_users.find? (fun u => u.id == userId)).map userWithoutPassword

/-- `getUserReport(userId?)`: resolves the target user (`userId` is tested
for JavaScript truthiness, so `some 0` falls back to the current user, like
`undefined` does), filters the activity log to that user, sorts it by
descending timestamp (stable), and tallies the four reported tags. -/
def getUserReport (σ : Store) (userId : Option Nat) : Option UserReport :=
  let user? := match userId with
    | some uid => if uid = 0 then getCurrentUser σ else getUserById σ uid
    | none => getCurrentUser σ
  match user? with
  | none => none
  | some user =>
    let acts := sortByKeyDesc (fun a => a.timestamp)
      (σ.user_activities.filter (fun a => a.userId == user.id))
    some
      { userId := user.id
        email := user.email
        artistName := user.name
        totalSignIns :=
          (acts.filter (fun a => a.eventType == EventType.signin)).length
        songsSelected :=
          (acts.filter
            (fun a => a.eventType == EventType.song_selection)).length
        recordingsCompleted :=
          (acts.filter
            (fun a => a.eventType == EventType.recording_complete)).length
        paymentsCompleted :=
          (acts.filter (fun a => a.eventType == EventType.payment)).length
        lastActivity := match acts with
          | [] => user.created_at
          | a :: _ => a.timestamp
        activities := acts }

/-- `getAllUserReports()`: one report per stored user, dropping the (never
occurring in practice) null reports — `users.map(...).filter(Boolean)`. -/
def getAllUserReports (σ : Store) : List UserReport :=
  σ.fallback_users.filterMap (fun u => getUserReport σ (some u.id))

/-- The reports of `getTopUsers` before sorting: each report extended with
its `totalActivity` sum. -/
def rankedReports (σ : Store) : List RankedReport :=
  (getAllUserReports σ).map fun r =>
    { toUserReport := r,
      totalActivity := r.totalSignIns + r.songsSelected
        + r.recordingsCompleted + r.paymentsCompleted }

/-- `getTopUsers(limit = 10)`: rank, sort by descending `totalActivity`
(stable), take the first `limit`. -/
def getTopUsers (σ : Store) (limit : Nat) : List RankedReport :=
  (sortByKeyDesc (fun r => r.totalActivity) (rankedReports σ)).take limit

/-- `array.join(sep)` of JavaScript: the elements interleaved with the
separator (empty string on the empty array). -/
def joinSep (sep : String) : List String → String
  | [] => ""
  | [a] => a
  | a :: b :: t => a ++ sep ++ joinSep sep (b :: t)

/-- The template `"${value}"` used for the textual CSV fields: the value's
characters between two double-quote characters, verbatim (no escaping). -/
def quoteField (s : String) : String := "\"" ++ s ++ "\""

/-- The fixed CSV header cells of `exportUserData`. -/
def csvHeaders : List String :=
  ["User ID", "Email", "Artist Name", "Sign-ins", "Songs Selected",
   "Recordings", "Payments", "Last Activity"]

/-- One CSV row of `exportUserData`: the eight cells joined with commas.
Numeric cells render through `Nat.repr` (JavaScript number-to-string);
`fmt` is `new Date(..).toLocaleString()`. -/
def csvRow (fmt : Nat → String) (r : UserReport) : String :=
  joinSep ","
    [Nat.repr r.userId, quoteField r.email,
     quoteField (r.artistName.getD ""), Nat.repr r.totalSignIns,
     Nat.repr r.songsSelected, Nat.repr r.recordingsCompleted,
     Nat.repr r.paymentsCompleted, quoteField (fmt r.lastActivity)]

/-- `exportUserData()`: the header row followed by one row per report,
joined with newlines. -/
def exportUserData (σ : Store) (fmt : Nat → String) : String :=
  joinSep "\n" (joinSep "," csvHeaders :: (getAllUserReports σ).map (csvRow fmt))

end ApiClient

/-- The lines of a string: the pieces between newline characters (a string
with no newline is one line, and each newline adds one). -/
def lines (s : String) : List String := s.split (fun c => c == '\n')

/-! ## Recording session (`KaraokeRecording` component)

The component state relevant to the session lifecycle.  The `MediaStream`
and DOM refs are abstracted to the facts the logic branches on: whether
permission was granted (`hasPermission`, standing for a live stream with
active tracks), whether a `MediaRecorder` has been created
(`mediaRecorder`), and the reference-video position/playing flag.  A chunk
is abstracted to its byte size (`ondataavailable` only ever inspects
`event.data.size`), and the artifact blob to its list of chunk sizes (the
blob is their concatenation, so its size is their sum).

The session states of the specification read off this record as:
`Ready` = not recording and no buffered artifact, `Recording` =
`isRecording`, `Stopped` = not recording with a buffered artifact. -/

namespace KaraokeRecording

/-- The recording-session state of the `KaraokeRecording` component. -/
structure RecState where
  isRecording : Bool
  recordedBlob : Option (List Nat)
  recordingTime : Nat
  hasPermission : Bool
  mediaRecorder : Bool
  recordedChunks : List Nat
  karaokeVideoPlaying : Bool
  karaokeVideoTime : Nat
  videoLoadError : Bool
  timerActive : Bool
deriving DecidableEq

/-- `startRecording()`: guarded by permission/active-tracks; clears the
chunk buffer, creates the recorder, starts recording with the counter at 0,
restarts the reference video from position 0 (unless it failed to load) and
starts the 1-second timer.  Note it does not clear `recordedBlob`. -/
def startRecording (s : RecState) : RecState :=
  if !s.hasPermission then s
  else
    { s with
      recordedChunks := []
      mediaRecorder := true
      isRecording := true
      recordingTime := 0
      karaokeVideoTime := if s.videoLoadError then s.karaokeVideoTime else 0
      karaokeVideoPlaying :=
        if s.videoLoadError then s.karaokeVideoPlaying else true
      timerActive := true }

/-- The `ondataavailable` handler: appends the chunk when its size is
positive. -/
def recordChunk (s : RecState) (size : Nat) : RecState :=
  if 0 < size then { s with recordedChunks := s.recordedChunks ++ [size] }
  else s

/-- One tick of the `setInterval(..., 1000)` timer: the elapsed-time counter
advances by one second while the timer runs. -/
def tick (s : RecState) : RecState :=
  if s.timerActive then { s with recordingTime := s.recordingTime + 1 }
  else s

/-- `stopRecording()`: only acts when a recorder exists and the session is
recording; rejects the stop (alert, early return, no state change) when the
elapsed time is below 1 second; otherwise stops the recorder — firing
`onstop`, which concatenates the buffered chunks into the artifact if any
data was captured (an empty blob is reported and leaves no artifact) —
pauses the reference video and clears the timer. -/
def stopRecording (s : RecState) : RecState :=
  if s.mediaRecorder && s.isRecording then
    if s.recordingTime < 1 then s
    else
      { s with
        isRecording := false
        recordedBlob :=
          if 0 < s.recordedChunks.sum then some s.recordedChunks
          else s.recordedBlob
        karaokeVideoPlaying := false
        timerActive := false }
  else s

/-- `restartRecording()`: a stop attempt, then discard the artifact, reset
the elapsed-time counter, and rewind and pause the reference video. -/
def restartRecording (s : RecState) : RecState :=
  let s1 := stopRecording s
  { s1 with
    recordedBlob := none
    recordingTime := 0
    karaokeVideoTime := 0
    karaokeVideoPlaying := false }

end KaraokeRecording

/-! ## Claims -/

open ApiClient KaraokeRecording

/-- C6: whenever the session is recording with elapsed time strictly below 1
second, a stop request is rejected: the state is completely unchanged — the
session remains recording, the recorder keeps running, and no artifact is
produced. -/
theorem stop_rejected_before_one_second (s : RecState)
    (hrec : s.isRecording = true) (ht : s.recordingTime < 1) :
    stopRecording s = s := by
  cases hm : s.mediaRecorder <;> simp [stopRecording, hm, hrec, ht]

/-- A session one tick short of a second into a recording, used to witness
the stop guard. -/
def recStateC6 : RecState :=
  { isRecording := true, recordedBlob := none, recordingTime := 0,
    hasPermission := true, mediaRecorder := true, recordedChunks := [2],
    karaokeVideoPlaying := true, karaokeVideoTime := 0,
    videoLoadError := false, timerActive := true }

/-- Witness for C6 at a concrete recording state. -/
theorem stop_rejected_before_one_second_witness :
    recStateC6.isRecording = true ∧ recStateC6.recordingTime < 1 ∧
    stopRecording recStateC6 = recStateC6 :=
  ⟨by decide, by decide,
    stop_rejected_before_one_second recStateC6 (by decide) (by decide)⟩

/-- A session that is recording with elapsed time 0, on which `restart`
fails to return to `Ready`. -/
def recStateC2 : RecState :=
  { isRecording := true, recordedBlob := none, recordingTime := 0,
    hasPermission := true, mediaRecorder := true, recordedChunks := [4],
    karaokeVideoPlaying := true, karaokeVideoTime := 7,
    videoLoadError := false, timerActive := true }

/-- C2 counterexample: from the `Recording` state with elapsed time 0,
`restartRecording` does not return the session to `Ready`: the inner
`stopRecording` call hits the 1-second guard and returns without stopping,
and the session remains recording. -/
theorem restart_not_always_ready_counterexample :
    recStateC2.isRecording = true ∧ recStateC2.recordingTime = 0 ∧
    (restartRecording recStateC2).isRecording = true := by decide

/-- C2 (amended): from every prior state `restartRecording` discards the
buffered artifact and resets the elapsed-time counter and the
reference-video position to zero; and it returns the session to `Ready`
(not recording) from every prior state except `Recording` with elapsed time
strictly below 1 second, where the 1-second stop guard leaves the session
recording. -/
theorem restart_resets_amended (s : RecState) :
    (restartRecording s).recordedBlob = none ∧
    (restartRecording s).recordingTime = 0 ∧
    (restartRecording s).karaokeVideoTime = 0 ∧
    (restartRecording s).karaokeVideoPlaying = false ∧
    ((s.isRecording = true → s.mediaRecorder = true ∧ 1 ≤ s.recordingTime) →
      (restartRecording s).isRecording = false) := by
  cases hm : s.mediaRecorder <;> cases hr : s.isRecording <;>
    by_cases ht : s.recordingTime < 1 <;>
      simp [restartRecording, stopRecording, hm, hr, ht]

/-- A `Stopped` session (artifact buffered, not recording), used to witness
the amended C2. -/
def recStateC2w : RecState :=
  { isRecording := false, recordedBlob := some [3], recordingTime := 5,
    hasPermission := true, mediaRecorder := true, recordedChunks := [3],
    karaokeVideoPlaying := false, karaokeVideoTime := 9,
    videoLoadError := false, timerActive := false }

/-- Witness for the amended C2 at a concrete `Stopped` state. -/
theorem restart_resets_amended_witness :
    (restartRecording recStateC2w).recordedBlob = none ∧
    (restartRecording recStateC2w).recordingTime = 0 ∧
    (restartRecording recStateC2w).karaokeVideoTime = 0 ∧
    (restartRecording recStateC2w).karaokeVideoPlaying = false ∧
    (restartRecording recStateC2w).isRecording = false := by
  have h := restart_resets_amended recStateC2w
  exact ⟨h.1, h.2.1, h.2.2.1, h.2.2.2.1, h.2.2.2.2 (by decide)⟩

/-- C3: when some stored account already has the given email, `signup`
returns the structured duplicate-account failure (success `false`, the
"User already exists" message, no user, no token) and the returned store is
exactly the input store: account list, activity log, session token and
cached account are all unchanged. -/
theorem signup_duplicate_email (σ : Store) (email password : String)
    (phone name : Option String) (now now2 : Nat) (rand : String)
    (h : ∃ u ∈ σ.fallback_users, u.email = email) :
    signup σ email password phone name now now2 rand
      = ({ success := false,
           message := "User already exists with this email.",
           user := none, token := none }, σ) := by
  have hfind : (σ.fallback_users.find? (fun u => u.email == email)).isSome := by
    rw [List.find?_isSome]
    obtain ⟨u, hu, he⟩ := h
    exact ⟨u, hu, by simp [he]⟩
  unfold signup fallbackSignup
  simp only [hfind, if_true]
  simp

/-- A store already holding an account with email `a@x.com`. -/
def storeC3 : Store :=
  { fallback_users :=
      [{ id := 1, email := "a@x.com", phone := none, name := none,
         created_at := 0, password := "q" }] }

/-- Witness for C3: a duplicate signup against `storeC3`. -/
theorem signup_duplicate_email_witness :
    (∃ u ∈ storeC3.fallback_users, u.email = "a@x.com") ∧
    signup storeC3 "a@x.com" "p2" none none 9 10 "r"
      = ({ success := false,
           message := "User already exists with this email.",
           user := none, token := none }, storeC3) :=
  ⟨by decide,
   signup_duplicate_email storeC3 "a@x.com" "p2" none none 9 10 "r"
     (by decide)⟩

/-- C5: `savePurchase` always appends the purchase (with its generated id
and timestamp) to the local `user_purchases` list — the resulting store does
not depend on the remote outcome at all, so a remote failure can never undo
the local write — and when the remote call fails the returned result is
still a success. -/
theorem savePurchase_local_durable (σ : Store) (p : PurchaseData)
    (useFallback : Bool) (remote : RemoteOutcome) (now : Nat) :
    (savePurchase σ p useFallback remote now).2
      = { σ with user_purchases := σ.user_purchases ++
            [{ user_id := p.user_id, song_title := p.song_title,
               artist_name := p.artist_name, category := p.category,
               video_url := p.video_url, amount := p.amount,
               id := now, purchased_at := now }] } ∧
    (remote = RemoteOutcome.fail →
      (savePurchase σ p useFallback remote now).1.success = true) := by
  cases useFallback <;> cases remote <;> simp [savePurchase]

/-- A purchase record used to witness C5. -/
def purchaseC5 : PurchaseData :=
  { user_id := 1, song_title := "Sweet Caroline", artist_name := "Neil Diamond",
    category := "adults", video_url := "blob:demo", amount := 50 }

/-- Witness for C5: a failing remote call still appends locally and reports
success. -/
theorem savePurchase_local_durable_witness :
    (savePurchase {} purchaseC5 false RemoteOutcome.fail 4).2
      = { user_purchases :=
            [{ user_id := 1, song_title := "Sweet Caroline",
               artist_name := "Neil Diamond", category := "adults",
               video_url := "blob:demo", amount := 50,
               id := 4, purchased_at := 4 }] } ∧
    (savePurchase {} purchaseC5 false RemoteOutcome.fail 4).1.success = true := by
  have h := savePurchase_local_durable {} purchaseC5 false RemoteOutcome.fail 4
  exact ⟨h.1, h.2 rfl⟩

/-- C4: the fallback signin succeeds exactly when some stored account
matches both email and secret; and after a fresh `signup` with secret `S`,
signin with that email and `S` succeeds with exactly the created account,
while signin with the same email and any other secret fails. -/
theorem signin_exact_credential_match (σ : Store) :
    (∀ email password,
      ((fallbackSignin σ email password).1.success = true ↔
        ∃ u ∈ σ.fallback_users, u.email = email ∧ u.password = password)) ∧
    (∀ email S S' phone name now now2 rand,
      (∀ u ∈ σ.fallback_users, u.email ≠ email) → S' ≠ S →
      (signup σ email S phone name now now2 rand).1.success = true ∧
      (fallbackSignin (signup σ email S phone name now now2 rand).2
        email S).1.success = true ∧
      (fallbackSignin (signup σ email S phone name now now2 rand).2
        email S).1.user
        = some { id := now, email := email, phone := phone, name := name,
                 created_at := now } ∧
      (fallbackSignin (signup σ email S phone name now now2 rand).2
        email S').1.success = false) := by
  constructor
  · intro email password
    unfold fallbackSignin
    cases hf : σ.fallback_users.find?
        (fun u => u.email == email && u.password == password) with
    | none =>
      simp only [hf]
      simp only [show (false = true) ↔ False by simp, false_iff]
      rintro ⟨u, hu, he, hp⟩
      have := List.find?_eq_none.mp hf u hu
      simp [he, hp] at this
    | some u =>
      simp only [hf]
      have hu := List.mem_of_find?_eq_some hf
      have hp := List.find?_some hf
      simp only [Bool.and_eq_true, beq_iff_eq] at hp
      simp only [true_iff]
      exact ⟨u, hu, hp.1, hp.2⟩
  · intro email S S' phone name now now2 rand hfresh hS
    have hnone : σ.fallback_users.find? (fun u => u.email == email) = none := by
      rw [List.find?_eq_none]; intro u hu; simp [hfresh u hu]
    have key : (signup σ email S phone name now now2 rand).1.success = true ∧
        (signup σ email S phone name now now2 rand).2.fallback_users
          = σ.fallback_users ++
            [{ id := now, email := email, phone := phone, name := name,
               created_at := now, password := S }] := by
      unfold signup fallbackSignup logActivity getCurrentUser
      simp [hnone]
    have hn1 : σ.fallback_users.find?
        (fun u => u.email == email && u.password == S) = none := by
      rw [List.find?_eq_none]; intro u hu; simp [hfresh u hu]
    have hn2 : σ.fallback_users.find?
        (fun u => u.email == email && u.password == S') = none := by
      rw [List.find?_eq_none]; intro u hu; simp [hfresh u hu]
    refine ⟨key.1, ?_, ?_, ?_⟩
    · unfold fallbackSignin
      rw [key.2, List.find?_append, hn1]
      simp
    · unfold fallbackSignin
      rw [key.2, List.find?_append, hn1]
      simp [userWithoutPassword]
    · have hS2 : S ≠ S' := Ne.symm hS
      unfold fallbackSignin
      rw [key.2, List.find?_append, hn2]
      simp [hS2]

/-- Witness for C4 on the empty store: sign up `a@x.com` with secret `p1`,
then sign in with `p1` (succeeds with the created account) and with `p2`
(fails). -/
theorem signin_exact_credential_match_witness :
    (fallbackSignin ({} : Store) "a@x.com" "p1").1.success = false ∧
    (signup ({} : Store) "a@x.com" "p1" none none 7 8 "r").1.success = true ∧
    (fallbackSignin (signup ({} : Store) "a@x.com" "p1" none none 7 8 "r").2
      "a@x.com" "p1").1.success = true ∧
    (fallbackSignin (signup ({} : Store) "a@x.com" "p1" none none 7 8 "r").2
      "a@x.com" "p1").1.user
      = some { id := 7, email := "a@x.com", phone := none, name := none,
               created_at := 7 } ∧
    (fallbackSignin (signup ({} : Store) "a@x.com" "p1" none none 7 8 "r").2
      "a@x.com" "p2").1.success = false := by
  have h := signin_exact_credential_match ({} : Store)
  have h2 := h.2 "a@x.com" "p1" "p2" none none 7 8 "r"
    (by intro u hu; simp at hu) (by decide)
  refine ⟨?_, h2.1, h2.2.1, h2.2.2.1, h2.2.2.2⟩
  have h1 := (h.1 "a@x.com" "p1").not
  by_contra hc
  rw [Bool.not_eq_false] at hc
  rcases (h.1 "a@x.com" "p1").mp hc with ⟨u, hu, _⟩
  simp at hu

/-- C9: every `User` value exposed by the fallback signin response or by the
by-id account resolution is the `userWithoutPassword` projection of a stored
record — and that projection is insensitive to the stored password, so the
exposed value never carries the password stored alongside it. -/
theorem exposed_users_lack_password (σ : Store) (email password : String)
    (uid : Nat) (u1 u2 : User) :
    ((fallbackSignin σ email password).1.user = some u1 →
      ∃ su ∈ σ.fallback_users, u1 = userWithoutPassword su) ∧
    (getUserById σ uid = some u2 →
      ∃ su ∈ σ.fallback_users, u2 = userWithoutPassword su) ∧
    (∀ (su : StoredUser) (pw : String),
      userWithoutPassword { su with password := pw } = userWithoutPassword su) := by
  refine ⟨?_, ?_, fun su pw => rfl⟩
  · unfold fallbackSignin
    cases hf : σ.fallback_users.find?
        (fun u => u.email == email && u.password == password) with
    | none => simp
    | some u =>
      intro h
      simp only [Option.some.injEq] at h
      exact ⟨u, List.mem_of_find?_eq_some hf, h.symm⟩
  · unfold getUserById
    cases hf : σ.fallback_users.find? (fun u => u.id == uid) with
    | none => intro h; simp at h
    | some u =>
      intro h
      rw [Option.map_some'] at h
      simp only [Option.some.injEq] at h
      exact ⟨u, List.mem_of_find?_eq_some hf, h.symm⟩

/-- A one-account store for the C9 witness. -/
def storeC9 : Store :=
  { fallback_users :=
      [{ id := 1, email := "a@x.com", phone := none, name := none,
         created_at := 0, password := "p" }] }

/-- The password-free user exposed from `storeC9`. -/
def userC9 : User :=
  { id := 1, email := "a@x.com", phone := none, name := none, created_at := 0 }

/-- Witness for C9 on `storeC9`: both exposure paths produce the stripped
projection of a stored record. -/
theorem exposed_users_lack_password_witness :
    (∃ su ∈ storeC9.fallback_users, userC9 = userWithoutPassword su) ∧
    (∃ su ∈ storeC9.fallback_users, userC9 = userWithoutPassword su) := by
  have h := exposed_users_lack_password storeC9 "a@x.com" "p" 1 userC9 userC9
  exact ⟨h.1 (by decide), h.2.1 (by decide)⟩

/-- C10: for an account with no matching activity events, `getUserReport`
still returns a present report: all four tallies are 0, the activities list
is empty, and `lastActivity` falls back to the account's creation
timestamp. -/
theorem report_for_inactive_account (σ : Store) (uid : Nat) (su : StoredUser)
    (h0 : uid ≠ 0)
    (h1 : σ.fallback_users.find? (fun u => u.id == uid) = some su)
    (h2 : σ.user_activities.filter (fun a => a.userId == uid) = []) :
    getUserReport σ (some uid)
      = some { userId := su.id, email := su.email, artistName := su.name,
               totalSignIns := 0, songsSelected := 0,
               recordingsCompleted := 0, paymentsCompleted := 0,
               lastActivity := su.created_at, activities := [] } := by
  have hsid : su.id = uid := by
    have := List.find?_some h1
    simpa using this
  unfold getUserReport getUserById
  simp only [h0, if_neg, h1]
  simp [userWithoutPassword, hsid, h2, sortByKeyDesc]

/-- The four tallied tags partition the non-`signup` part of a list of
activity events: the tallies add up to the number of non-signup events, not
to the full length. -/
theorem tally_partition (l : List ActivityLog) :
    (l.filter (fun a => a.eventType == EventType.signin)).length
      + (l.filter (fun a => a.eventType == EventType.song_selection)).length
      + (l.filter (fun a => a.eventType == EventType.recording_complete)).length
      + (l.filter (fun a => a.eventType == EventType.payment)).length
    = (l.filter (fun a => a.eventType != EventType.signup)).length := by
  induction l with
  | nil => simp
  | cons a t ih =>
    cases h : a.eventType <;>
      simp [List.filter_cons, h] <;> omega

/-- The store produced by one successful signup on an empty store: it logs
one `signup` activity for the new account. -/
def storeC1 : Store := (signup {} "a@x.com" "p" none none 3 5 "r").2

/-- The report `getUserReport` computes for the account of `storeC1`. -/
def reportC1 : UserReport :=
  { userId := 3, email := "a@x.com", artistName := none,
    totalSignIns := 0, songsSelected := 0, recordingsCompleted := 0,
    paymentsCompleted := 0, lastActivity := 5,
    activities :=
      [{ id := "5_r", userId := 3, eventType := EventType.signup,
         timestamp := 5, details := some { email := some "a@x.com" } }] }

/-- C1 counterexample: for the account of `storeC1` the log holds N = 1
activity event (its `signup`), but the four per-tag tallies of the report
sum to 0, not to N — `getUserReport` tallies only signin, song-selection,
recording-complete and payment events, never signup events. -/
theorem getUserReport_tally_counterexample :
    getUserReport storeC1 (some 3) = some reportC1 ∧
    reportC1.activities.length = 1 ∧
    reportC1.totalSignIns + reportC1.songsSelected
        + reportC1.recordingsCompleted + reportC1.paymentsCompleted
      ≠ reportC1.activities.length := by decide

/-- C1 (amended): for every account and every state of the activity log,
`getUserReport` returns a report whose activities list has exactly as many
entries as the account has logged events, all owned by that account; whose
four per-tag tallies sum to the number of those events that are not
`signup` events (so to N exactly when no signup event is among them); and
whose entries are sorted by non-increasing timestamp — strictly descending
whenever the account's logged timestamps are pairwise distinct. -/
theorem getUserReport_shape_amended (σ : Store) (uid : Nat) (u : User)
    (h0 : uid ≠ 0) (h1 : getUserById σ uid = some u) :
    ∃ r, getUserReport σ (some uid) = some r ∧
      r.activities.length
        = (σ.user_activities.filter (fun a => a.userId == u.id)).length ∧
      (∀ a ∈ r.activities, a.userId = u.id) ∧
      r.totalSignIns + r.songsSelected + r.recordingsCompleted
          + r.paymentsCompleted
        = ((σ.user_activities.filter (fun a => a.userId == u.id)).filter
            (fun a => a.eventType != EventType.signup)).length ∧
      r.activities.Pairwise (fun x y => y.timestamp ≤ x.timestamp) ∧
      ((σ.user_activities.filter (fun a => a.userId == u.id)).Pairwise
          (fun x y => x.timestamp ≠ y.timestamp) →
        r.activities.Pairwise (fun x y => y.timestamp < x.timestamp)) := by
  unfold getUserReport
  simp only [if_neg h0, h1]
  refine ⟨_, rfl, ?_, ?_, ?_, ?_, ?_⟩
  · exact (perm_sortByKeyDesc _ _).length_eq
  · intro a ha
    have ha2 := (perm_sortByKeyDesc _ _).mem_iff.mp ha
    have := (List.mem_filter.mp ha2).2
    simpa using this
  · rw [tally_partition]
    exact ((perm_sortByKeyDesc _ _).filter _).length_eq
  · exact sorted_sortByKeyDesc _ _
  · intro hd
    exact strict_sorted_sortByKeyDesc _ _ hd

/-- A store with one account (id 4) owning two events with distinct
timestamps, plus an event of another account. -/
def storeC1w : Store :=
  { fallback_users :=
      [{ id := 4, email := "w@x.com", phone := none, name := none,
         created_at := 4, password := "p" }]
    user_activities :=
      [{ id := "6_a", userId := 4, eventType := EventType.signin,
         timestamp := 6, details := none },
       { id := "9_b", userId := 4, eventType := EventType.payment,
         timestamp := 9, details := none },
       { id := "7_c", userId := 5, eventType := EventType.signin,
         timestamp := 7, details := none }] }

/-- The account of `storeC1w` as exposed without its password. -/
def userC1w : User :=
  { id := 4, email := "w@x.com", phone := none, name := none, created_at := 4 }

/-- Witness for the amended C1 on `storeC1w`. -/
theorem getUserReport_shape_amended_witness :
    ∃ r, getUserReport storeC1w (some 4) = some r ∧
      r.activities.length
        = (storeC1w.user_activities.filter
            (fun a => a.userId == userC1w.id)).length ∧
      (∀ a ∈ r.activities, a.userId = userC1w.id) ∧
      r.totalSignIns + r.songsSelected + r.recordingsCompleted
          + r.paymentsCompleted
        = ((storeC1w.user_activities.filter
            (fun a => a.userId == userC1w.id)).filter
            (fun a => a.eventType != EventType.signup)).length ∧
      r.activities.Pairwise (fun x y => y.timestamp ≤ x.timestamp) ∧
      ((storeC1w.user_activities.filter
          (fun a => a.userId == userC1w.id)).Pairwise
          (fun x y => x.timestamp ≠ y.timestamp) →
        r.activities.Pairwise (fun x y => y.timestamp < x.timestamp)) :=
  getUserReport_shape_amended storeC1w 4 userC1w (by decide) (by decide)

/-- C7: `getTopUsers` returns at most `k` reports, ordered non-increasing by
`totalActivity` (which equals the sum of the four per-tag tallies on every
returned report), and the sort is stable: for every tally value, the
returned reports with that value are an initial segment of the ranked
reports with that value in their original order. -/
theorem getTopUsers_spec (σ : Store) (k : Nat) :
    (getTopUsers σ k).length ≤ k ∧
    (getTopUsers σ k).Pairwise
      (fun x y => y.totalActivity ≤ x.totalActivity) ∧
    (∀ r ∈ getTopUsers σ k,
      r.totalActivity = r.totalSignIns + r.songsSelected
        + r.recordingsCompleted + r.paymentsCompleted) ∧
    (∀ v, ∃ rest,
      (rankedReports σ).filter (fun r => r.totalActivity == v)
        = (getTopUsers σ k).filter (fun r => r.totalActivity == v) ++ rest) := by
  refine ⟨?_, ?_, ?_, ?_⟩
  · exact List.length_take_le k _
  · exact List.Pairwise.sublist (List.take_sublist k _)
      (sorted_sortByKeyDesc _ _)
  · intro r hr
    have hr2 : r ∈ sortByKeyDesc (fun x => x.totalActivity) (rankedReports σ) :=
      (List.take_sublist k _).subset hr
    have hr3 : r ∈ rankedReports σ :=
      (perm_sortByKeyDesc _ _).mem_iff.mp hr2
    obtain ⟨r0, _, rfl⟩ := List.mem_map.mp hr3
    rfl
  · intro v
    refine ⟨((sortByKeyDesc (fun x => x.totalActivity)
        (rankedReports σ)).drop k).filter (fun r => r.totalActivity == v), ?_⟩
    conv_lhs =>
      rw [← filter_sortByKeyDesc (fun x => x.totalActivity) v (rankedReports σ),
        ← List.take_append_drop k
          (sortByKeyDesc (fun x => x.totalActivity) (rankedReports σ)),
        List.filter_append]
    rfl

/-- A two-account store (ids 3 and 8, one signin event each plus a payment
for account 8) on which to witness `getTopUsers`. -/
def storeC7 : Store :=
  { fallback_users :=
      [{ id := 3, email := "c@x.com", phone := none, name := none,
         created_at := 1, password := "p" },
       { id := 8, email := "d@x.com", phone := none, name := none,
         created_at := 2, password := "p" }]
    user_activities :=
      [{ id := "5_a", userId := 3, eventType := EventType.signin,
         timestamp := 5, details := none },
       { id := "6_b", userId := 8, eventType := EventType.signin,
         timestamp := 6, details := none },
       { id := "7_c", userId := 8, eventType := EventType.payment,
         timestamp := 7, details := none }] }

/-- Witness for C7 on `storeC7` with limit 2. -/
theorem getTopUsers_spec_witness :
    (getTopUsers storeC7 2).length ≤ 2 ∧
    (getTopUsers storeC7 2).Pairwise
      (fun x y => y.totalActivity ≤ x.totalActivity) ∧
    (∀ r ∈ getTopUsers storeC7 2,
      r.totalActivity = r.totalSignIns + r.songsSelected
        + r.recordingsCompleted + r.paymentsCompleted) ∧
    (∀ v, ∃ rest,
      (rankedReports storeC7).filter (fun r => r.totalActivity == v)
        = (getTopUsers storeC7 2).filter (fun r => r.totalActivity == v)
          ++ rest) :=
  getTopUsers_spec storeC7 2

/-- A store whose account 2 has no activity (the only logged event belongs
to another id). -/
def storeC10 : Store :=
  { fallback_users :=
      [{ id := 2, email := "b@x.com", phone := none, name := some "B",
         created_at := 11, password := "p" }]
    user_activities :=
      [{ id := "9_r", userId := 5, eventType := EventType.signin,
         timestamp := 9, details := none }] }

/-- Witness for C10 on `storeC10`. -/
theorem report_for_inactive_account_witness :
    getUserReport storeC10 (some 2)
      = some { userId := 2, email := "b@x.com", artistName := some "B",
               totalSignIns := 0, songsSelected := 0,
               recordingsCompleted := 0, paymentsCompleted := 0,
               lastActivity := 11, activities := [] } := by
  have h := report_for_inactive_account storeC10 2
    { id := 2, email := "b@x.com", phone := none, name := some "B",
      created_at := 11, password := "p" }
    (by decide) (by decide) (by decide)
  exact h

/-! ### CSV export (C8): string-level infrastructure -/

theorem data_joinSep (sep : String) : (l : List String) →
    (joinSep sep l).data = List.intercalate sep.data (l.map String.data)
  | [] => by simp [joinSep, List.intercalate]
  | [a] => by simp [joinSep, List.intercalate]
  | a :: b :: t => by
    have ih := data_joinSep sep (b :: t)
    simp only [joinSep, String.data_append, ih, List.map_cons,
      List.intercalate, List.intersperse_cons_cons, List.flatten_cons]
    simp [List.append_assoc]

theorem mem_data_joinSep {c : Char} (sep : String) : (l : List String) →
    c ∈ (joinSep sep l).data → c ∈ sep.data ∨ ∃ s ∈ l, c ∈ s.data
  | [] => by intro h; simp [joinSep] at h
  | [a] => by
    intro h
    exact Or.inr ⟨a, List.mem_singleton.mpr rfl, h⟩
  | a :: b :: t => by
    intro h
    simp only [joinSep, String.data_append, List.mem_append] at h
    rcases h with (h | h) | h
    · exact Or.inr ⟨a, List.mem_cons_self a _, h⟩
    · exact Or.inl h
    · rcases mem_data_joinSep sep (b :: t) h with h | ⟨s, hs, hcs⟩
      · exact Or.inl h
      · exact Or.inr ⟨s, List.mem_cons_of_mem a hs, hcs⟩

theorem joinSep_decomp (sep : String) : (l : List String) → (x : String) →
    x ∈ l → ∃ pre post : List Char,
      (joinSep sep l).data = pre ++ x.data ++ post
  | [], x => by intro h; simp at h
  | [a], x => by
    intro h
    rcases List.mem_singleton.mp h with rfl
    exact ⟨[], [], by simp [joinSep]⟩
  | a :: b :: t, x => by
    intro h
    rcases List.mem_cons.mp h with rfl | h
    · refine ⟨[], sep.data ++ (joinSep sep (b :: t)).data, ?_⟩
      simp [joinSep, String.data_append, List.append_assoc]
    · obtain ⟨pre, post, hdec⟩ := joinSep_decomp sep (b :: t) x h
      refine ⟨a.data ++ sep.data ++ pre, post, ?_⟩
      simp [joinSep, String.data_append, hdec, List.append_assoc]

theorem digitChar_ne_newline (m : Nat) : Nat.digitChar m ≠ '\n' := by
  by_cases h16 : m < 16
  · interval_cases m <;> decide
  · unfold Nat.digitChar
    rw [if_neg (show ¬ m = 0 by omega), if_neg (show ¬ m = 1 by omega),
      if_neg (show ¬ m = 2 by omega), if_neg (show ¬ m = 3 by omega),
      if_neg (show ¬ m = 4 by omega), if_neg (show ¬ m = 5 by omega),
      if_neg (show ¬ m = 6 by omega), if_neg (show ¬ m = 7 by omega),
      if_neg (show ¬ m = 8 by omega), if_neg (show ¬ m = 9 by omega),
      if_neg (show ¬ m = 10 by omega), if_neg (show ¬ m = 11 by omega),
      if_neg (show ¬ m = 12 by omega), if_neg (show ¬ m = 13 by omega),
      if_neg (show ¬ m = 14 by omega), if_neg (show ¬ m = 15 by omega)]
    decide

theorem toDigitsCore_ne_newline (b : Nat) : (f n : Nat) → (ds : List Char) →
    (∀ c ∈ ds, c ≠ '\n') → ∀ c ∈ Nat.toDigitsCore b f n ds, c ≠ '\n'
  | 0, n, ds, hds => by simpa [Nat.toDigitsCore] using hds
  | f + 1, n, ds, hds => by
    simp only [Nat.toDigitsCore]
    split
    · intro c hc
      rcases List.mem_cons.mp hc with rfl | hc
      · exact digitChar_ne_newline _
      · exact hds c hc
    · refine toDigitsCore_ne_newline b f (n / b)
        (Nat.digitChar (n % b) :: ds) ?_
      intro c hc
      rcases List.mem_cons.mp hc with rfl | hc
      · exact digitChar_ne_newline _
      · exact hds c hc

/-- `Nat.repr` (JavaScript number-to-string for the naturals in play) never
contains a newline character. -/
theorem repr_ne_newline (n : Nat) : '\n' ∉ (Nat.repr n).data := by
  intro h
  exact toDigitsCore_ne_newline 10 (n + 1) n [] (by simp) '\n' h rfl

theorem quoteField_ne_newline (x : String) (hx : '\n' ∉ x.data) :
    '\n' ∉ (quoteField x).data := by
  intro h
  simp only [quoteField, String.data_append, List.mem_append] at h
  rcases h with (h | h) | h
  · exact absurd h (by decide)
  · exact hx h
  · exact absurd h (by decide)

theorem csvRow_ne_newline (fmt : Nat → String) (r : UserReport)
    (he : '\n' ∉ r.email.data)
    (hn : '\n' ∉ (r.artistName.getD "").data)
    (hf : '\n' ∉ (fmt r.lastActivity).data) :
    '\n' ∉ (csvRow fmt r).data := by
  intro h
  rcases mem_data_joinSep "," _ h with hsep | ⟨s, hs, hcs⟩
  · exact absurd hsep (by decide)
  · simp only [List.mem_cons, List.not_mem_nil, or_false] at hs
    rcases hs with rfl | rfl | rfl | rfl | rfl | rfl | rfl | rfl
    · exact repr_ne_newline _ hcs
    · exact quoteField_ne_newline _ he hcs
    · exact quoteField_ne_newline _ hn hcs
    · exact repr_ne_newline _ hcs
    · exact repr_ne_newline _ hcs
    · exact repr_ne_newline _ hcs
    · exact repr_ne_newline _ hcs
    · exact quoteField_ne_newline _ hf hcs

/-- Splitting `joinSep "\n" l` on newlines recovers `l`, provided `l` is
nonempty (as it always is here: the header row is present) and no element
contains a newline. -/
theorem lines_joinSep (l : List String) (h0 : l ≠ [])
    (hx : ∀ s ∈ l, '\n' ∉ s.data) :
    lines (joinSep "\n" l) = l := by
  unfold lines
  rw [String.split_of_valid]
  have hdata : (joinSep "\n" l).data
      = List.intercalate ['\n'] (l.map String.data) := data_joinSep "\n" l
  have hsplit : (List.intercalate ['\n'] (l.map String.data)).splitOn '\n'
      = l.map String.data := by
    refine List.splitOn_intercalate (l.map String.data) '\n' ?_ ?_
    · intro m hm
      obtain ⟨s, hs, rfl⟩ := List.mem_map.mp hm
      exact hx s hs
    · simpa using h0
  simp only [List.splitOn] at hsplit
  rw [show (joinSep "\n" l).1 = List.intercalate ['\n'] (l.map String.data)
    from hdata]
  rw [hsplit, List.map_map]
  have hid : (String.mk ∘ String.data) = id := funext fun s => rfl
  rw [hid, List.map_id]

/-- Every report of `getAllUserReports` carries the email and display name
of some stored account (needed to push per-account hypotheses down to the
rows). -/
theorem getAllUserReports_sourced (σ : Store)
    (hid : ∀ u ∈ σ.fallback_users, u.id ≠ 0) :
    ∀ r ∈ getAllUserReports σ, ∃ su ∈ σ.fallback_users,
      r.email = su.email ∧ r.artistName = su.name := by
  intro r hr
  unfold getAllUserReports at hr
  obtain ⟨u, hu, hru⟩ := List.mem_filterMap.mp hr
  unfold getUserReport getUserById at hru
  simp only [if_neg (hid u hu)] at hru
  cases hof : σ.fallback_users.find? (fun x => x.id == u.id) with
  | none => rw [hof] at hru; simp at hru
  | some su =>
    rw [hof] at hru
    simp only [Option.map_some', Option.some.injEq] at hru
    refine ⟨su, List.mem_of_find?_eq_some hof, ?_, ?_⟩
    · rw [← hru]
      rfl
    · rw [← hru]
      rfl

/-- When every stored account has a nonzero id, `getAllUserReports` yields
exactly one report per account. -/
theorem length_getAllUserReports (σ : Store)
    (hid : ∀ u ∈ σ.fallback_users, u.id ≠ 0) :
    (getAllUserReports σ).length = σ.fallback_users.length := by
  unfold getAllUserReports
  rw [List.filterMap_length_eq_length]
  intro u hu
  unfold getUserReport getUserById
  simp only [if_neg (hid u hu)]
  have hsome : (σ.fallback_users.find? (fun x => x.id == u.id)).isSome := by
    rw [List.find?_isSome]
    exact ⟨u, hu, by simp⟩
  obtain ⟨su, hsu⟩ := Option.isSome_iff_exists.mp hsome
  rw [hsu]
  simp

/-- A store whose single account's email contains a newline, breaking the
line count of the export. -/
def storeC8 : Store :=
  { fallback_users :=
      [{ id := 1, email := "a\nb", phone := none, name := none,
         created_at := 0, password := "p" }] }

/-- A constant stand-in for `toLocaleString` in the C8 counterexample. -/
def fmtC8 : Nat → String := fun _ => "ts"

/-- C8 counterexample: `storeC8` has M = 1 account, but the export consists
of 3 lines, not 1 + M = 2 — the quoted email field embeds its newline
verbatim and nothing escapes it, so the row itself spans two lines. -/
theorem exportUserData_lines_counterexample :
    (lines (exportUserData storeC8 fmtC8)).length
      ≠ 1 + storeC8.fallback_users.length := by
  rw [lines, String.split_of_valid]
  decide

/-- C8 (amended): provided every stored account has a nonzero id and no
newline occurs in any account's email or display name or in the formatted
last-activity string, the export consists of exactly 1 + M lines for M
accounts; and each report's quoted email and quoted display-name fields
embed the underlying value's characters verbatim (as the contiguous segment
`"value"` of the output).  The quoted last-activity field is the
locale-formatted rendering of the timestamp, not the raw stored value. -/
theorem exportUserData_shape_amended (σ : Store) (fmt : Nat → String)
    (hid : ∀ u ∈ σ.fallback_users, u.id ≠ 0)
    (hem : ∀ u ∈ σ.fallback_users, '\n' ∉ u.email.data)
    (hnm : ∀ u ∈ σ.fallback_users, '\n' ∉ (u.name.getD "").data)
    (hfmt : ∀ t, '\n' ∉ (fmt t).data) :
    (lines (exportUserData σ fmt)).length = 1 + σ.fallback_users.length ∧
    ∀ r ∈ getAllUserReports σ,
      (∃ pre post : List Char,
        (exportUserData σ fmt).data
          = pre ++ (quoteField r.email).data ++ post) ∧
      (∃ pre post : List Char,
        (exportUserData σ fmt).data
          = pre ++ (quoteField (r.artistName.getD "")).data ++ post) := by
  have hrow : ∀ r ∈ getAllUserReports σ, '\n' ∉ (csvRow fmt r).data := by
    intro r hr
    obtain ⟨su, hsu, hemail, hname⟩ := getAllUserReports_sourced σ hid r hr
    refine csvRow_ne_newline fmt r ?_ ?_ (hfmt _)
    · rw [hemail]; exact hem su hsu
    · rw [hname]; exact hnm su hsu
  constructor
  · unfold exportUserData
    rw [lines_joinSep]
    · simp [length_getAllUserReports σ hid, Nat.add_comm]
    · simp
    · intro s hs
      rcases List.mem_cons.mp hs with rfl | hs
      · decide
      · obtain ⟨r, hr, rfl⟩ := List.mem_map.mp hs
        exact hrow r hr
  · intro r hr
    have hmem : csvRow fmt r
        ∈ joinSep "," csvHeaders :: (getAllUserReports σ).map (csvRow fmt) :=
      List.mem_cons_of_mem _ (List.mem_map_of_mem (csvRow fmt) hr)
    obtain ⟨pre, post, houter⟩ :=
      joinSep_decomp "\n" _ (csvRow fmt r) hmem
    constructor
    · obtain ⟨pre2, post2, hinner⟩ :=
        joinSep_decomp ","
          [Nat.repr r.userId, quoteField r.email,
           quoteField (r.artistName.getD ""), Nat.repr r.totalSignIns,
           Nat.repr r.songsSelected, Nat.repr r.recordingsCompleted,
           Nat.repr r.paymentsCompleted, quoteField (fmt r.lastActivity)]
          (quoteField r.email) (by simp)
      refine ⟨pre ++ pre2, post2 ++ post, ?_⟩
      rw [show (exportUserData σ fmt).data
          = pre ++ (csvRow fmt r).data ++ post from houter]
      rw [show (csvRow fmt r).data
          = pre2 ++ (quoteField r.email).data ++ post2 from hinner]
      simp [List.append_assoc]
    · obtain ⟨pre2, post2, hinner⟩ :=
        joinSep_decomp ","
          [Nat.repr r.userId, quoteField r.email,
           quoteField (r.artistName.getD ""), Nat.repr r.totalSignIns,
           Nat.repr r.songsSelected, Nat.repr r.recordingsCompleted,
           Nat.repr r.paymentsCompleted, quoteField (fmt r.lastActivity)]
          (quoteField (r.artistName.getD "")) (by simp)
      refine ⟨pre ++ pre2, post2 ++ post, ?_⟩
      rw [show (exportUserData σ fmt).data
          = pre ++ (csvRow fmt r).data ++ post from houter]
      rw [show (csvRow fmt r).data
          = pre2 ++ (quoteField (r.artistName.getD "")).data ++ post2
        from hinner]
      simp [List.append_assoc]

/-- A well-formed one-account store for the C8 witness. -/
def storeC8w : Store :=
  { fallback_users :=
      [{ id := 6, email := "w@x.com", phone := none, name := some "W",
         created_at := 2, password := "p" }] }

/-- A newline-free stand-in for `toLocaleString` in the C8 witness. -/
def fmtC8w : Nat → String := fun _ => "1970/01/01"

/-- Witness for the amended C8 on `storeC8w`. -/
theorem exportUserData_shape_amended_witness :
    (lines (exportUserData storeC8w fmtC8w)).length
      = 1 + storeC8w.fallback_users.length ∧
    ∀ r ∈ getAllUserReports storeC8w,
      (∃ pre post : List Char,
        (exportUserData storeC8w fmtC8w).data
          = pre ++ (quoteField r.email).data ++ post) ∧
      (∃ pre post : List Char,
        (exportUserData storeC8w fmtC8w).data
          = pre ++ (quoteField (r.artistName.getD "")).data ++ post) :=
  exportUserData_shape_amended storeC8w fmtC8w (by decide) (by decide)
    (by decide)
    (by intro t; show '\n' ∉ ("1970/01/01" : String).data; decide)

end Singsation
